import Mathlib

/-!
Verification of the Facility Booking Management System (Flask/MySQL).

Shallow embedding of the data model and the operations reached from the
routes in `app.py`, the model layer in `models.py`, the form validators in
`forms.py`, and the schema declared in `database.py`.

Modelling conventions:
- `booking_date` is a day number (days since an arbitrary epoch); the current
  date is passed in as `today`.
- `start_time` / `end_time` are minutes since midnight (the `TimeField`s use
  the `%H:%M` format, so times have minute granularity).
- The MySQL tables are lists of rows; `AUTO_INCREMENT` on `bookings` is the
  `nextBookingId` counter.
- `execute_query` in `models.py` returns `cursor.rowcount` for writes
  (MySQL default: the number of rows actually changed); each model-layer
  operation below returns the updated database state together with that
  row count.
- `database.py` declares `FOREIGN KEY (facility_id) REFERENCES
  facilities(facility_id) ON DELETE CASCADE` on `bookings`, so deleting a
  facility row also deletes every booking row referencing it; the embedded
  `Facility_delete` carries that cascade.
-/

namespace FBMS

/-- Booking status, from the `bookings.status` column:
`ENUM('pending', 'approved', 'rejected', 'cancelled')` in `database.py`. -/
inductive BookingStatus where
  | pending
  | approved
  | rejected
  | cancelled
deriving DecidableEq, Repr

/-- A row of the `users` table (password hash and timestamp omitted:
no claim touches them). `role` is the string column `ENUM('admin','staff')`. -/
structure UserRow where
  user_id : Nat
  name : String
  email : String
  role : String
deriving DecidableEq, Repr

/-- A row of the `facilities` table (image and timestamp omitted:
no claim touches them). -/
structure FacilityRow where
  facility_id : Nat
  name : String
  capacity : Nat
  status : String
  description : String
deriving DecidableEq, Repr

/-- A row of the `bookings` table (`created_at` omitted: it is DB-managed
metadata no claim touches). -/
structure BookingRow where
  booking_id : Nat
  user_id : Nat
  facility_id : Nat
  booking_date : Nat
  start_time : Nat
  end_time : Nat
  status : BookingStatus
  purpose : String
deriving DecidableEq, Repr

/-- The persisted database state: the three tables of `init_database` plus
the `AUTO_INCREMENT` counter of `bookings`. -/
structure DBState where
  users : List UserRow
  facilities : List FacilityRow
  bookings : List BookingRow
  nextBookingId : Nat
deriving DecidableEq, Repr

/-- Role string for administrators (`models.py`: `User.is_admin`). -/
def adminRole : String := "admin"

/-- Role string for staff (`models.py`: `User.is_staff`). -/
def staffRole : String := "staff"

/-- `models.py` `Booking.create`: inserts one row with `status = 'pending'`
and returns `cursor.rowcount` (1 for a single-row INSERT). -/
def Booking_create (db : DBState) (uid fid bdate st et : Nat) (purpose : String) :
    DBState × Nat :=
  ({ db with
      bookings := db.bookings ++
        [⟨db.nextBookingId, uid, fid, bdate, st, et, BookingStatus.pending, purpose⟩],
      nextBookingId := db.nextBookingId + 1 },
   1)

/-- `models.py` `Booking.update_status`:
`UPDATE bookings SET status = %s WHERE booking_id = %s`, returning the
row count (rows whose status actually changed, the MySQL default). -/
def Booking_update_status (db : DBState) (bid : Nat) (s : BookingStatus) :
    DBState × Nat :=
  (({ db with
      bookings := db.bookings.map (fun b =>
        if b.booking_id = bid then { b with status := s } else b) }),
   db.bookings.countP (fun b => decide (b.booking_id = bid ∧ b.status ≠ s)))

/-- `models.py` `Booking.cancel`:
`UPDATE bookings SET status = 'cancelled'
 WHERE booking_id = %s AND user_id = %s AND status = 'pending'`,
returning the row count. -/
def Booking_cancel (db : DBState) (bid uid : Nat) : DBState × Nat :=
  (({ db with
      bookings := db.bookings.map (fun b =>
        if b.booking_id = bid ∧ b.user_id = uid ∧ b.status = BookingStatus.pending
        then { b with status := BookingStatus.cancelled } else b) }),
   db.bookings.countP (fun b =>
     decide (b.booking_id = bid ∧ b.user_id = uid ∧ b.status = BookingStatus.pending)))

/-- `models.py` `Facility.get_by_id`: first facility row with the given id. -/
def Facility_get_by_id (db : DBState) (fid : Nat) : Option FacilityRow :=
  db.facilities.find? (fun f => decide (f.facility_id = fid))

/-- `models.py` `Facility.has_active_bookings`:
`SELECT COUNT(*) FROM bookings WHERE facility_id = %s AND
 status IN ('pending', 'approved')`, then `count > 0`. -/
def Facility_has_active_bookings (db : DBState) (fid : Nat) : Bool :=
  decide (0 < db.bookings.countP (fun b =>
    decide (b.facility_id = fid ∧
      (b.status = BookingStatus.pending ∨ b.status = BookingStatus.approved))))

/-- `models.py` `Facility.delete`:
`DELETE FROM facilities WHERE facility_id = %s`, returning the row count.
Per the schema in `database.py`, `bookings.facility_id` is declared
`ON DELETE CASCADE`, so the booking rows referencing the facility go with it. -/
def Facility_delete (db : DBState) (fid : Nat) : DBState × Nat :=
  (({ db with
      facilities := db.facilities.filter (fun f => decide (f.facility_id ≠ fid)),
      bookings := db.bookings.filter (fun b => decide (b.facility_id ≠ fid)) }),
   db.facilities.countP (fun f => decide (f.facility_id = fid)))

/-- The data carried by `BookingForm` (`forms.py`), all required fields
present (their `DataRequired`/`InputRequired` validators passed). -/
structure BookingFormData where
  facility_id : Nat
  booking_date : Nat
  start_time : Nat
  end_time : Nat
  purpose : String
deriving DecidableEq, Repr

/-- Message of `forms.py` `validate_booking_date`. -/
def msgPastDate : String := "Cannot book for past dates"

/-- First message of `forms.py` `validate_end_time`. -/
def msgEndBeforeStart : String := "End time must be after start time"

/-- Second message of `forms.py` `validate_end_time`. -/
def msgMaxDuration : String := "Maximum booking duration is 8 hours"

/-- Third message of `forms.py` `validate_end_time`. -/
def msgMinDuration : String := "Minimum booking duration is 30 minutes"

/-- `forms.py` `BookingForm.validate_booking_date`: raises when the booking
date is strictly before `date.today()`. It compares dates only; it never
looks at the clock time. -/
def validate_booking_date (today d : Nat) : Option String :=
  if d < today then some msgPastDate else none

/-- `forms.py` `BookingForm.validate_end_time`: end must be strictly after
start; duration (in minutes, times have minute granularity) must be at most
8 hours (480 min) and at least 30 minutes, checked in that order. -/
def validate_end_time (start_t end_t : Nat) : Option String :=
  if end_t ≤ start_t then some msgEndBeforeStart
  else if 480 < end_t - start_t then some msgMaxDuration
  else if end_t - start_t < 30 then some msgMinDuration
  else none

/-- Message of WTForms `Length(max=500)` on the `purpose` field. -/
def msgPurposeTooLong : String := "Field cannot be longer than 500 characters."

/-- `forms.py` `BookingForm.purpose` validator `Length(max=500)`: a purpose
longer than 500 characters is rejected (an absent purpose counts as length
0, as WTForms' `Length` treats empty data). -/
def validate_purpose_length (p : String) : Option String :=
  if 500 < p.length then some msgPurposeTooLong else none

/-- All field errors raised by `BookingForm`'s validators beyond field
presence: the two custom validators and the `Length(max=500)` check on
`purpose`, in field order. -/
def bookingFormErrors (today : Nat) (f : BookingFormData) : List String :=
  (validate_booking_date today f.booking_date).toList ++
  (validate_end_time f.start_time f.end_time).toList ++
  (validate_purpose_length f.purpose).toList

/-- `form.validate_on_submit()` outcome for `BookingForm`: field presence is
granted by construction of `BookingFormData`; the date, end-time and
purpose-length validators must all pass. -/
def validate_on_submit (today : Nat) (f : BookingFormData) : Bool :=
  (bookingFormErrors today f).isEmpty

/-- Outcome of a route handler: a 403 abort, or a rendered/redirected page
carrying the flashed category and message. -/
inductive RouteOutcome where
  | abort403
  | page (category : String) (message : String)
deriving DecidableEq, Repr

/-- Result of running a route handler: the database afterwards and the
visible outcome. -/
structure RouteResult where
  db : DBState
  outcome : RouteOutcome
deriving DecidableEq, Repr

/-- Flash category for success messages in `app.py`. -/
def catSuccess : String := "dashboard-success"

/-- Flash category for failure messages in `app.py`. -/
def catDanger : String := "dashboard-danger"

/-- Flash message of the invalid-form branch of `create_booking`. -/
def msgInvalidBooking : String := "Invalid booking data."

/-- Flash message of the success branch of `create_booking`. -/
def msgBookingSubmitted : String := "Booking request submitted."

/-- Flash message of `cancel_booking`. -/
def msgBookingCancelled : String := "Booking cancelled successfully."

/-- Flash message of `approve_booking`. -/
def msgBookingApproved : String := "Booking approved."

/-- Flash message of `reject_booking`. -/
def msgBookingRejected : String := "Booking rejected."

/-- Flash message of the missing-facility branch of `delete_facility`. -/
def msgFacilityNotFound : String := "Facility not found."

/-- Flash message of the guarded branch of `delete_facility`. -/
def msgFacilityHasActive : String := "Cannot delete facility with active or pending bookings."

/-- Flash message of the success branch of `delete_facility`. -/
def msgFacilityDeleted : String := "Facility deleted successfully."

/-- `app.py` route `create_booking` (POST /booking/create): staff only;
on invalid form data flashes danger and creates nothing; otherwise calls
`Booking.create` with the current user's id and the form fields. -/
def create_booking (db : DBState) (today : Nat) (u : UserRow) (f : BookingFormData) :
    RouteResult :=
  if u.role ≠ staffRole then ⟨db, RouteOutcome.abort403⟩
  else if !(validate_on_submit today f) then
    ⟨db, RouteOutcome.page catDanger msgInvalidBooking⟩
  else
    ⟨(Booking_create db u.user_id f.facility_id f.booking_date f.start_time
        f.end_time f.purpose).1,
     RouteOutcome.page catSuccess msgBookingSubmitted⟩

/-- `app.py` route `cancel_booking` (POST /booking/cancel/<id>): staff only;
calls `Booking.cancel` and flashes success unconditionally, ignoring the
returned row count. -/
def cancel_booking (db : DBState) (u : UserRow) (bid : Nat) : RouteResult :=
  if u.role ≠ staffRole then ⟨db, RouteOutcome.abort403⟩
  else ⟨(Booking_cancel db bid u.user_id).1,
        RouteOutcome.page catSuccess msgBookingCancelled⟩

/-- `app.py` route `approve_booking` (POST /admin/bookings/approve/<id>):
admin only; calls `Booking.update_status(bid, 'approved')` and flashes
success unconditionally, ignoring the returned row count. -/
def approve_booking (db : DBState) (u : UserRow) (bid : Nat) : RouteResult :=
  if u.role ≠ adminRole then ⟨db, RouteOutcome.abort403⟩
  else ⟨(Booking_update_status db bid BookingStatus.approved).1,
        RouteOutcome.page catSuccess msgBookingApproved⟩

/-- `app.py` route `reject_booking` (POST /admin/bookings/reject/<id>):
admin only; calls `Booking.update_status(bid, 'rejected')` and flashes
success unconditionally. -/
def reject_booking (db : DBState) (u : UserRow) (bid : Nat) : RouteResult :=
  if u.role ≠ adminRole then ⟨db, RouteOutcome.abort403⟩
  else ⟨(Booking_update_status db bid BookingStatus.rejected).1,
        RouteOutcome.page catSuccess msgBookingRejected⟩

/-- `app.py` route `delete_facility` (POST /admin/facilities/delete/<id>):
admin only; missing facility flashes danger; a facility with a pending or
approved booking flashes the business-rule rejection and deletes nothing;
otherwise `Facility.delete` runs and success is flashed. -/
def delete_facility (db : DBState) (u : UserRow) (fid : Nat) : RouteResult :=
  if u.role ≠ adminRole then ⟨db, RouteOutcome.abort403⟩
  else
    match Facility_get_by_id db fid with
    | none => ⟨db, RouteOutcome.page catDanger msgFacilityNotFound⟩
    | some _ =>
      if Facility_has_active_bookings db fid then
        ⟨db, RouteOutcome.page catDanger msgFacilityHasActive⟩
      else
        ⟨(Facility_delete db fid).1, RouteOutcome.page catSuccess msgFacilityDeleted⟩

end FBMS

namespace FBMS

/-! Concrete rows and states used by the closed witness theorems. -/

/-- A staff user. -/
def wStaff : UserRow := ⟨1, "Alice", "alice@example.com", staffRole⟩

/-- A second staff user. -/
def wStaff2 : UserRow := ⟨2, "Bob", "bob@example.com", staffRole⟩

/-- An admin user. -/
def wAdmin : UserRow := ⟨3, "Carol", "carol@example.com", adminRole⟩

/-- A facility row. -/
def wFacility : FacilityRow := ⟨1, "Room A", 10, "active", ""⟩

/-- A sample purpose string. -/
def wPurpose : String := "team meeting"

/-- A pending booking of facility 1 by user 1, day 100, 09:00 to 10:30. -/
def wPending : BookingRow := ⟨1, 1, 1, 100, 540, 630, BookingStatus.pending, wPurpose⟩

/-- The same booking in the approved state. -/
def wApproved : BookingRow := ⟨1, 1, 1, 100, 540, 630, BookingStatus.approved, wPurpose⟩

/-- The same booking in the rejected state. -/
def wRejected : BookingRow := ⟨1, 1, 1, 100, 540, 630, BookingStatus.rejected, wPurpose⟩

/-- The same booking in the cancelled state. -/
def wCancelled : BookingRow := ⟨1, 1, 1, 100, 540, 630, BookingStatus.cancelled, wPurpose⟩

/-- Database holding the pending booking. -/
def wDBpending : DBState := ⟨[wStaff, wAdmin], [wFacility], [wPending], 2⟩

/-- Database holding the approved booking. -/
def wDBapproved : DBState := ⟨[wStaff, wAdmin], [wFacility], [wApproved], 2⟩

/-- Database holding the rejected booking. -/
def wDBrejected : DBState := ⟨[wStaff, wAdmin], [wFacility], [wRejected], 2⟩

/-- Database holding the cancelled booking. -/
def wDBcancelled : DBState := ⟨[wStaff, wAdmin], [wFacility], [wCancelled], 2⟩

/-- Database with no bookings. -/
def wDBempty : DBState := ⟨[wStaff, wStaff2, wAdmin], [wFacility], [], 1⟩

/-- A valid form: facility 1, day 101 (tomorrow of day 100), 09:00 to 10:30. -/
def wForm : BookingFormData := ⟨1, 101, 540, 630, wPurpose⟩

/-- A form with a past date (day 99, before day 100). -/
def wFormPast : BookingFormData := ⟨1, 99, 540, 630, wPurpose⟩

/-- A form with end time 13:00 before start time 14:00. -/
def wFormBad : BookingFormData := ⟨1, 101, 840, 780, wPurpose⟩

/-- A valid form overlapping `wForm`: facility 1, day 101, 10:00 to 11:00. -/
def wForm2 : BookingFormData := ⟨1, 101, 600, 660, wPurpose⟩

/-- A same-day form lying entirely before the current clock time:
day 100, 09:00 to 09:30, while the clock reads 10:00 (600 minutes). -/
def wFormSameDay : BookingFormData := ⟨1, 100, 540, 570, wPurpose⟩

/-- Database for the C5 counterexample: the next `AUTO_INCREMENT` value is 2,
so the inserted row's primary key differs from the returned row count. -/
def cexDB : DBState := ⟨[wStaff], [wFacility], [], 2⟩

/-- Mapping a function that fixes every element of a list is the identity. -/
theorem list_map_id_of_mem {α : Type} (l : List α) (f : α → α)
    (h : ∀ a ∈ l, f a = a) : l.map f = l := by
  induction l with
  | nil => rfl
  | cons a t ih =>
    simp only [List.map_cons]
    rw [h a (by simp), ih (fun b hb => h b (by simp [hb]))]

/-- C1: the cancel operation sets a booking's status to cancelled if and only
if that booking currently has status pending, its owner is the requesting
user, and its id is the requested one; every other row of the bookings table
(wrong owner, non-pending status, different or nonexistent id) is left
completely unchanged, as are the users and facilities tables. -/
theorem cancel_transition_iff_pending_owner (db : DBState) (bid uid i : Nat)
    (b : BookingRow) (hb : db.bookings[i]? = some b) :
    (Booking_cancel db bid uid).1.users = db.users ∧
    (Booking_cancel db bid uid).1.facilities = db.facilities ∧
    (Booking_cancel db bid uid).1.bookings.length = db.bookings.length ∧
    ((b.booking_id = bid ∧ b.user_id = uid ∧ b.status = BookingStatus.pending) →
      (Booking_cancel db bid uid).1.bookings[i]? =
        some { b with status := BookingStatus.cancelled }) ∧
    (¬(b.booking_id = bid ∧ b.user_id = uid ∧ b.status = BookingStatus.pending) →
      (Booking_cancel db bid uid).1.bookings[i]? = some b) := by
  refine ⟨rfl, rfl, by simp [Booking_cancel], ?_, ?_⟩
  · intro h
    simp only [Booking_cancel, List.getElem?_map, hb, Option.map_some']
    rw [if_pos h]
  · intro h
    simp only [Booking_cancel, List.getElem?_map, hb, Option.map_some']
    rw [if_neg h]

/-- Witness for C1: in `wDBpending`, user 1 cancelling booking 1 (pending,
owned by user 1) flips exactly that row to cancelled. -/
theorem cancel_transition_iff_pending_owner_witness :
    (Booking_cancel wDBpending 1 1).1.bookings[0]? =
      some { wPending with status := BookingStatus.cancelled } :=
  (cancel_transition_iff_pending_owner wDBpending 1 1 0 wPending rfl).2.2.2.1
    ⟨rfl, rfl, rfl⟩

/-- C2: booking-creation validation accepts the time fields if and only if
end is strictly after start and the duration is between 30 minutes and
8 hours; each violation is reported with the message naming the broken rule
(end-before-start, max duration, min duration), and on any such violation
the create route leaves the database unchanged and flashes the failure. -/
theorem creation_time_validation_iff (db : DBState) (today : Nat) (u : UserRow)
    (f : BookingFormData) (hrole : u.role = staffRole) :
    (validate_end_time f.start_time f.end_time = none ↔
      (f.start_time < f.end_time ∧ 30 ≤ f.end_time - f.start_time ∧
        f.end_time - f.start_time ≤ 480)) ∧
    (f.end_time ≤ f.start_time →
      validate_end_time f.start_time f.end_time = some msgEndBeforeStart) ∧
    (480 < f.end_time - f.start_time →
      validate_end_time f.start_time f.end_time = some msgMaxDuration) ∧
    (f.start_time < f.end_time → f.end_time - f.start_time < 30 →
      validate_end_time f.start_time f.end_time = some msgMinDuration) ∧
    (validate_end_time f.start_time f.end_time ≠ none →
      (create_booking db today u f).db = db ∧
      (create_booking db today u f).outcome =
        RouteOutcome.page catDanger msgInvalidBooking) := by
  refine ⟨?_, ?_, ?_, ?_, ?_⟩
  · unfold validate_end_time
    split_ifs with h1 h2 h3 <;> simp <;> omega
  · intro h
    unfold validate_end_time
    rw [if_pos h]
  · intro h
    unfold validate_end_time
    rw [if_neg (by omega), if_pos h]
  · intro h h2
    unfold validate_end_time
    rw [if_neg (by omega), if_neg (by omega), if_pos h2]
  · intro h
    rcases Option.ne_none_iff_exists'.mp h with ⟨msg, hm⟩
    have hfalse : validate_on_submit today f = false := by
      simp [validate_on_submit, bookingFormErrors, hm]
    constructor <;> simp [create_booking, hrole, hfalse]

/-- Witness for C2: a 14:00 to 13:00 request is rejected with the
end-before-start message. -/
theorem creation_time_validation_iff_witness :
    validate_end_time wFormBad.start_time wFormBad.end_time =
      some msgEndBeforeStart :=
  (creation_time_validation_iff wDBempty 100 wStaff wFormBad rfl).2.1 (by decide)

/-- C3: the admin approve and reject transitions overwrite the status field
unconditionally — whatever the booking's current status, including the
terminal states approved, rejected and cancelled — while the cancel
operation leaves a booking in any terminal state untouched. -/
theorem admin_overwrite_unconditional (db : DBState) (u : UserRow)
    (hadmin : u.role = adminRole) (bid uid i : Nat) (b : BookingRow)
    (hb : db.bookings[i]? = some b) (hid : b.booking_id = bid) :
    (approve_booking db u bid).db.bookings[i]? =
      some { b with status := BookingStatus.approved } ∧
    (reject_booking db u bid).db.bookings[i]? =
      some { b with status := BookingStatus.rejected } ∧
    ((b.status = BookingStatus.approved ∨ b.status = BookingStatus.rejected ∨
        b.status = BookingStatus.cancelled) →
      (Booking_cancel db bid uid).1.bookings[i]? = some b) := by
  have happrove : approve_booking db u bid =
      ⟨(Booking_update_status db bid BookingStatus.approved).1,
       RouteOutcome.page catSuccess msgBookingApproved⟩ := by
    rw [approve_booking, if_neg (by simp [hadmin])]
  have hreject : reject_booking db u bid =
      ⟨(Booking_update_status db bid BookingStatus.rejected).1,
       RouteOutcome.page catSuccess msgBookingRejected⟩ := by
    rw [reject_booking, if_neg (by simp [hadmin])]
  refine ⟨?_, ?_, ?_⟩
  · rw [happrove]
    simp only [Booking_update_status, List.getElem?_map, hb, Option.map_some']
    rw [if_pos hid]
  · rw [hreject]
    simp only [Booking_update_status, List.getElem?_map, hb, Option.map_some']
    rw [if_pos hid]
  · intro hterm
    have hnp : b.status ≠ BookingStatus.pending := by
      rcases hterm with h | h | h <;> simp [h]
    simp only [Booking_cancel, List.getElem?_map, hb, Option.map_some']
    rw [if_neg (fun hc => hnp hc.2.2)]

/-- Witness for C3: approving the already-cancelled booking 1 in
`wDBcancelled` overwrites the terminal state to approved, while cancelling
it leaves it cancelled. -/
theorem admin_overwrite_unconditional_witness :
    (approve_booking wDBcancelled wAdmin 1).db.bookings[0]? =
      some { wCancelled with status := BookingStatus.approved } ∧
    (Booking_cancel wDBcancelled 1 1).1.bookings[0]? = some wCancelled := by
  have h := admin_overwrite_unconditional wDBcancelled wAdmin rfl 1 1 0
    wCancelled rfl rfl
  exact ⟨h.1, h.2.2 (Or.inr (Or.inr rfl))⟩

/-- C4: a creation attempt dated strictly before the current date fails
validation with the past-date message, the create route flashes the failure,
and the stored database — in particular the set of bookings — is exactly the
same after the failed attempt as before it. -/
theorem past_date_rejected_no_insert (db : DBState) (today : Nat) (u : UserRow)
    (f : BookingFormData) (hrole : u.role = staffRole)
    (hpast : f.booking_date < today) :
    validate_booking_date today f.booking_date = some msgPastDate ∧
    msgPastDate ∈ bookingFormErrors today f ∧
    (create_booking db today u f).db = db ∧
    (create_booking db today u f).outcome =
      RouteOutcome.page catDanger msgInvalidBooking := by
  have hd : validate_booking_date today f.booking_date = some msgPastDate := by
    simp [validate_booking_date, hpast]
  have hfalse : validate_on_submit today f = false := by
    simp [validate_on_submit, bookingFormErrors, hd]
  refine ⟨hd, ?_, ?_, ?_⟩
  · simp [bookingFormErrors, hd]
  · simp [create_booking, hrole, hfalse]
  · simp [create_booking, hrole, hfalse]

/-- Witness for C4: on day 100, a request for day 99 changes nothing in
`wDBempty` and flashes the failure. -/
theorem past_date_rejected_no_insert_witness :
    (create_booking wDBempty 100 wStaff wFormPast).db = wDBempty :=
  (past_date_rejected_no_insert wDBempty 100 wStaff wFormPast rfl
    (by decide)).2.2.1

/-- Counterexample to C5 as stated: with the bookings `AUTO_INCREMENT`
counter at 2, `Booking.create` returns 1 — `cursor.rowcount` of the INSERT,
per `execute_query` in `models.py` — while the newly inserted row's primary
key is 2, so the return value is not the new row's identifier. -/
theorem create_returns_rowcount_not_id_cex :
    (Booking_create cexDB 1 1 100 540 630 wPurpose).2 = 1 ∧
    (Booking_create cexDB 1 1 100 540 630 wPurpose).1.bookings.map
      BookingRow.booking_id = [2] ∧
    (Booking_create cexDB 1 1 100 540 630 wPurpose).2 ≠ 2 :=
  ⟨rfl, rfl, by decide⟩

/-- C5 (amended): a creation request that passes validation inserts exactly
one new Booking row, whose status is pending and whose primary key is the
next auto-increment value; the operation returns the affected row count
(always 1), not the new row's primary key. -/
theorem create_inserts_pending_returns_rowcount (db : DBState)
    (uid fid bdate st et : Nat) (p : String) :
    (Booking_create db uid fid bdate st et p).1.bookings =
      db.bookings ++
        [⟨db.nextBookingId, uid, fid, bdate, st, et, BookingStatus.pending, p⟩] ∧
    (Booking_create db uid fid bdate st et p).1.users = db.users ∧
    (Booking_create db uid fid bdate st et p).1.facilities = db.facilities ∧
    (Booking_create db uid fid bdate st et p).2 = 1 :=
  ⟨rfl, rfl, rfl, rfl⟩

/-- C6: `has_active_bookings` holds exactly when some booking of the facility
is pending or approved; in that case the delete route refuses with the
business-rule message and changes nothing, and otherwise it flashes success,
removes every facility row with that id and keeps every other facility row. -/
theorem delete_facility_guard_iff (db : DBState) (u : UserRow)
    (hadmin : u.role = adminRole) (fid : Nat) (fac : FacilityRow)
    (hfac : Facility_get_by_id db fid = some fac) :
    (Facility_has_active_bookings db fid = true ↔
      ∃ b ∈ db.bookings, b.facility_id = fid ∧
        (b.status = BookingStatus.pending ∨ b.status = BookingStatus.approved)) ∧
    (Facility_has_active_bookings db fid = true →
      (delete_facility db u fid).db = db ∧
      (delete_facility db u fid).outcome =
        RouteOutcome.page catDanger msgFacilityHasActive) ∧
    (Facility_has_active_bookings db fid = false →
      (delete_facility db u fid).outcome =
        RouteOutcome.page catSuccess msgFacilityDeleted ∧
      (∀ g ∈ (delete_facility db u fid).db.facilities, g.facility_id ≠ fid) ∧
      (∀ g ∈ db.facilities, g.facility_id ≠ fid →
        g ∈ (delete_facility db u fid).db.facilities)) := by
  refine ⟨?_, ?_, ?_⟩
  · simp [Facility_has_active_bookings, List.countP_pos_iff]
  · intro hact
    constructor <;> simp [delete_facility, hadmin, hfac, hact]
  · intro hact
    have hdel : delete_facility db u fid =
        ⟨(Facility_delete db fid).1,
         RouteOutcome.page catSuccess msgFacilityDeleted⟩ := by
      simp [delete_facility, hadmin, hfac, hact]
    refine ⟨by rw [hdel], ?_, ?_⟩
    · intro g hg
      rw [hdel] at hg
      simp only [Facility_delete] at hg
      simpa using (List.mem_filter.mp hg).2
    · intro g hg hne
      rw [hdel]
      simp only [Facility_delete]
      exact List.mem_filter.mpr ⟨hg, by simpa using hne⟩

/-- Witness for C6: facility 1 in `wDBpending` has a pending booking, so
deleting it changes nothing. -/
theorem delete_facility_guard_iff_witness :
    (delete_facility wDBpending wAdmin 1).db = wDBpending :=
  ((delete_facility_guard_iff wDBpending wAdmin rfl 1 wFacility rfl).2.1 rfl).1

/-- C7: two creation requests that pass validation for the same facility, the
same date and overlapping time intervals both succeed, and both rows are
inserted with status pending — creation performs no overlap check (the
overlap hypothesis is never consulted). -/
theorem overlapping_creations_both_pending (db : DBState) (today : Nat)
    (u1 u2 : UserRow) (h1 : u1.role = staffRole) (h2 : u2.role = staffRole)
    (f1 f2 : BookingFormData)
    (hv1 : validate_on_submit today f1 = true)
    (hv2 : validate_on_submit today f2 = true)
    (hfac : f1.facility_id = f2.facility_id)
    (hdate : f1.booking_date = f2.booking_date)
    (hover : f1.start_time < f2.end_time ∧ f2.start_time < f1.end_time) :
    (create_booking db today u1 f1).outcome =
      RouteOutcome.page catSuccess msgBookingSubmitted ∧
    (create_booking (create_booking db today u1 f1).db today u2 f2).outcome =
      RouteOutcome.page catSuccess msgBookingSubmitted ∧
    (create_booking (create_booking db today u1 f1).db today u2 f2).db.bookings =
      db.bookings ++
        [⟨db.nextBookingId, u1.user_id, f1.facility_id, f1.booking_date,
           f1.start_time, f1.end_time, BookingStatus.pending, f1.purpose⟩,
         ⟨db.nextBookingId + 1, u2.user_id, f2.facility_id, f2.booking_date,
           f2.start_time, f2.end_time, BookingStatus.pending, f2.purpose⟩] := by
  have hc1 : create_booking db today u1 f1 =
      ⟨(Booking_create db u1.user_id f1.facility_id f1.booking_date f1.start_time
          f1.end_time f1.purpose).1,
       RouteOutcome.page catSuccess msgBookingSubmitted⟩ := by
    rw [create_booking, if_neg (by simp [h1]), if_neg (by simp [hv1])]
  have hs1 : (create_booking db today u1 f1).db =
      (Booking_create db u1.user_id f1.facility_id f1.booking_date f1.start_time
        f1.end_time f1.purpose).1 := by
    rw [hc1]
  refine ⟨by rw [hc1], ?_, ?_⟩
  · rw [hs1, create_booking, if_neg (by simp [h2]), if_neg (by simp [hv2])]
  · rw [hs1, create_booking, if_neg (by simp [h2]), if_neg (by simp [hv2])]
    simp [Booking_create]

/-- Witness for C7: on day 100, staff 1 books facility 1 on day 101 from
09:00 to 10:30 and staff 2 books the overlapping 10:00 to 11:00 slot; both
rows land as pending. -/
theorem overlapping_creations_both_pending_witness :
    (create_booking (create_booking wDBempty 100 wStaff wForm).db 100 wStaff2
        wForm2).db.bookings =
      wDBempty.bookings ++
        [⟨1, 1, 1, 101, 540, 630, BookingStatus.pending, wPurpose⟩,
         ⟨2, 2, 1, 101, 600, 660, BookingStatus.pending, wPurpose⟩] :=
  (overlapping_creations_both_pending wDBempty 100 wStaff wStaff2 rfl rfl
    wForm wForm2 rfl rfl rfl rfl (by decide)).2.2

/-- C8: every transition route — approve, reject and cancel — reports a
row-count-based outcome and treats zero rows affected as silent success:
cancelling a booking whose WHERE clause matches no row (in particular an
existing booking that is not pending, or a nonexistent id) and approving or
rejecting a nonexistent booking id all yield row count 0, leave the
database unchanged, and still flash the route's success message. -/
theorem zero_rowcount_silent_success (db : DBState) (u ua : UserRow)
    (hs : u.role = staffRole) (ha : ua.role = adminRole) (bid bid2 : Nat)
    (hnoc : ∀ b ∈ db.bookings,
      ¬(b.booking_id = bid ∧ b.user_id = u.user_id ∧
        b.status = BookingStatus.pending))
    (hnone : ∀ b ∈ db.bookings, b.booking_id ≠ bid2) :
    (Booking_cancel db bid u.user_id).2 = 0 ∧
    (cancel_booking db u bid).db = db ∧
    (cancel_booking db u bid).outcome =
      RouteOutcome.page catSuccess msgBookingCancelled ∧
    (Booking_update_status db bid2 BookingStatus.approved).2 = 0 ∧
    (approve_booking db ua bid2).db = db ∧
    (approve_booking db ua bid2).outcome =
      RouteOutcome.page catSuccess msgBookingApproved ∧
    (Booking_update_status db bid2 BookingStatus.rejected).2 = 0 ∧
    (reject_booking db ua bid2).db = db ∧
    (reject_booking db ua bid2).outcome =
      RouteOutcome.page catSuccess msgBookingRejected := by
  have hmapc : db.bookings.map (fun b =>
      if b.booking_id = bid ∧ b.user_id = u.user_id ∧
          b.status = BookingStatus.pending
      then { b with status := BookingStatus.cancelled } else b) = db.bookings :=
    list_map_id_of_mem _ _ (fun b hbmem => if_neg (hnoc b hbmem))
  have hmapa : db.bookings.map (fun b =>
      if b.booking_id = bid2 then { b with status := BookingStatus.approved }
      else b) = db.bookings :=
    list_map_id_of_mem _ _ (fun b hbmem => if_neg (hnone b hbmem))
  have hmapr : db.bookings.map (fun b =>
      if b.booking_id = bid2 then { b with status := BookingStatus.rejected }
      else b) = db.bookings :=
    list_map_id_of_mem _ _ (fun b hbmem => if_neg (hnone b hbmem))
  have hcount : db.bookings.countP (fun b =>
      decide (b.booking_id = bid ∧ b.user_id = u.user_id ∧
        b.status = BookingStatus.pending)) = 0 :=
    List.countP_eq_zero.mpr (fun b hbmem => by simpa using hnoc b hbmem)
  have hcount2 : db.bookings.countP (fun b =>
      decide (b.booking_id = bid2 ∧ b.status ≠ BookingStatus.approved)) = 0 :=
    List.countP_eq_zero.mpr (fun b hbmem => by simp [hnone b hbmem])
  have hcount3 : db.bookings.countP (fun b =>
      decide (b.booking_id = bid2 ∧ b.status ≠ BookingStatus.rejected)) = 0 :=
    List.countP_eq_zero.mpr (fun b hbmem => by simp [hnone b hbmem])
  have hc : Booking_cancel db bid u.user_id = (db, 0) := by
    rw [Booking_cancel, hmapc, hcount]
  have hu : Booking_update_status db bid2 BookingStatus.approved = (db, 0) := by
    rw [Booking_update_status, hmapa, hcount2]
  have hr : Booking_update_status db bid2 BookingStatus.rejected = (db, 0) := by
    rw [Booking_update_status, hmapr, hcount3]
  have hcanc : cancel_booking db u bid =
      ⟨(Booking_cancel db bid u.user_id).1,
       RouteOutcome.page catSuccess msgBookingCancelled⟩ := by
    rw [cancel_booking, if_neg (by simp [hs])]
  have happ : approve_booking db ua bid2 =
      ⟨(Booking_update_status db bid2 BookingStatus.approved).1,
       RouteOutcome.page catSuccess msgBookingApproved⟩ := by
    rw [approve_booking, if_neg (by simp [ha])]
  have hrej : reject_booking db ua bid2 =
      ⟨(Booking_update_status db bid2 BookingStatus.rejected).1,
       RouteOutcome.page catSuccess msgBookingRejected⟩ := by
    rw [reject_booking, if_neg (by simp [ha])]
  refine ⟨by rw [hc], ?_, by rw [hcanc], by rw [hu], ?_, by rw [happ],
    by rw [hr], ?_, by rw [hrej]⟩
  · rw [hcanc]
    show (Booking_cancel db bid u.user_id).1 = db
    rw [hc]
  · rw [happ]
    show (Booking_update_status db bid2 BookingStatus.approved).1 = db
    rw [hu]
  · rw [hrej]
    show (Booking_update_status db bid2 BookingStatus.rejected).1 = db
    rw [hr]

/-- Witness for C8: in `wDBapproved` the owner (user 1) cancels their own
existing booking 1, which is approved — not pending — so zero rows change,
the database is untouched, and the route still flashes success; approving
and rejecting the nonexistent id 99 likewise flash success. -/
theorem zero_rowcount_silent_success_witness :
    (Booking_cancel wDBapproved 1 wStaff.user_id).2 = 0 ∧
    (cancel_booking wDBapproved wStaff 1).db = wDBapproved ∧
    (cancel_booking wDBapproved wStaff 1).outcome =
      RouteOutcome.page catSuccess msgBookingCancelled ∧
    (approve_booking wDBapproved wAdmin 99).outcome =
      RouteOutcome.page catSuccess msgBookingApproved ∧
    (reject_booking wDBapproved wAdmin 99).outcome =
      RouteOutcome.page catSuccess msgBookingRejected := by
  have h := zero_rowcount_silent_success wDBapproved wStaff wAdmin rfl rfl 1 99
    (by decide) (by decide)
  exact ⟨h.1, h.2.1, h.2.2.1, h.2.2.2.2.2.1, h.2.2.2.2.2.2.2.2⟩

/-- C9: the past-date validator has date granularity only: a request whose
booking date equals the current date passes it — and, when the duration and
purpose-length rules hold, passes the whole form validation — even when
both start and end times lie strictly before the current wall-clock time. -/
theorem same_day_past_time_accepted (today nowMinutes : Nat)
    (f : BookingFormData) (hdate : f.booking_date = today)
    (hstart : f.start_time < nowMinutes) (hend : f.end_time < nowMinutes)
    (hlt : f.start_time < f.end_time)
    (hmin : 30 ≤ f.end_time - f.start_time)
    (hmax : f.end_time - f.start_time ≤ 480)
    (hplen : f.purpose.length ≤ 500) :
    validate_booking_date today f.booking_date = none ∧
    validate_on_submit today f = true := by
  have h1 : validate_booking_date today f.booking_date = none := by
    rw [validate_booking_date, if_neg (by omega)]
  have h2 : validate_end_time f.start_time f.end_time = none := by
    rw [validate_end_time, if_neg (by omega), if_neg (by omega),
      if_neg (by omega)]
  have h3 : validate_purpose_length f.purpose = none := by
    rw [validate_purpose_length, if_neg (by omega)]
  exact ⟨h1, by simp [validate_on_submit, bookingFormErrors, h1, h2, h3]⟩

/-- Witness for C9: at 10:00 (minute 600) on day 100, a booking for day 100
from 09:00 to 09:30 — entirely in the past — is accepted. -/
theorem same_day_past_time_accepted_witness :
    validate_on_submit 100 wFormSameDay = true :=
  (same_day_past_time_accepted 100 600 wFormSameDay rfl (by decide) (by decide)
    (by decide) (by decide) (by decide) (by decide)).2

/-- C10: a permitted facility deletion cascades per the schema: afterwards no
booking references the deleted facility, every booking of another facility
survives, every booking removed by the cascade had status rejected or
cancelled (by the active-booking guard), the users table is untouched, and
exactly the facility rows with the deleted id are gone. -/
theorem delete_cascade_frame (db : DBState) (u : UserRow)
    (hadmin : u.role = adminRole) (fid : Nat) (fac : FacilityRow)
    (hfac : Facility_get_by_id db fid = some fac)
    (hguard : Facility_has_active_bookings db fid = false) :
    (delete_facility db u fid).outcome =
      RouteOutcome.page catSuccess msgFacilityDeleted ∧
    (∀ b ∈ (delete_facility db u fid).db.bookings, b.facility_id ≠ fid) ∧
    (∀ b ∈ db.bookings, b.facility_id ≠ fid →
      b ∈ (delete_facility db u fid).db.bookings) ∧
    (∀ b ∈ db.bookings, b ∉ (delete_facility db u fid).db.bookings →
      b.status = BookingStatus.rejected ∨ b.status = BookingStatus.cancelled) ∧
    (delete_facility db u fid).db.users = db.users ∧
    (∀ g ∈ (delete_facility db u fid).db.facilities, g.facility_id ≠ fid) ∧
    (∀ g ∈ db.facilities, g.facility_id ≠ fid →
      g ∈ (delete_facility db u fid).db.facilities) := by
  have hdel : delete_facility db u fid =
      ⟨(Facility_delete db fid).1,
       RouteOutcome.page catSuccess msgFacilityDeleted⟩ := by
    simp [delete_facility, hadmin, hfac, hguard]
  have h0 : db.bookings.countP (fun b => decide (b.facility_id = fid ∧
      (b.status = BookingStatus.pending ∨
        b.status = BookingStatus.approved))) = 0 := by
    have h := hguard
    simp only [Facility_has_active_bookings, decide_eq_false_iff_not,
      Nat.not_lt, Nat.le_zero] at h
    exact h
  have hnotactive : ∀ b ∈ db.bookings, ¬(b.facility_id = fid ∧
      (b.status = BookingStatus.pending ∨
        b.status = BookingStatus.approved)) := by
    intro b hbmem
    simpa using List.countP_eq_zero.mp h0 b hbmem
  refine ⟨by rw [hdel], ?_, ?_, ?_, ?_, ?_, ?_⟩
  · intro b hb
    rw [hdel] at hb
    simp only [Facility_delete] at hb
    simpa using (List.mem_filter.mp hb).2
  · intro b hb hne
    rw [hdel]
    simp only [Facility_delete]
    exact List.mem_filter.mpr ⟨hb, by simpa using hne⟩
  · intro b hb hnot
    by_cases hf : b.facility_id = fid
    · have hst : ¬(b.status = BookingStatus.pending ∨
          b.status = BookingStatus.approved) :=
        fun hcase => hnotactive b hb ⟨hf, hcase⟩
      cases hbs : b.status with
      | pending => exact absurd (Or.inl hbs) hst
      | approved => exact absurd (Or.inr hbs) hst
      | rejected => exact Or.inl rfl
      | cancelled => exact Or.inr rfl
    · exfalso
      apply hnot
      rw [hdel]
      simp only [Facility_delete]
      exact List.mem_filter.mpr ⟨hb, by simpa using hf⟩
  · simp [hdel, Facility_delete]
  · intro g hg
    rw [hdel] at hg
    simp only [Facility_delete] at hg
    simpa using (List.mem_filter.mp hg).2
  · intro g hg hne
    rw [hdel]
    simp only [Facility_delete]
    exact List.mem_filter.mpr ⟨hg, by simpa using hne⟩

/-- Witness for C10: deleting facility 1 from `wDBrejected` (its only
booking is rejected) succeeds and leaves no booking referencing it. -/
theorem delete_cascade_frame_witness :
    (delete_facility wDBrejected wAdmin 1).outcome =
      RouteOutcome.page catSuccess msgFacilityDeleted ∧
    (∀ b ∈ (delete_facility wDBrejected wAdmin 1).db.bookings,
      b.facility_id ≠ 1) := by
  have h := delete_cascade_frame wDBrejected wAdmin rfl 1 wFacility rfl rfl
  exact ⟨h.1, h.2.1⟩

end FBMS
